import Mathlib

/-!
Shallow embedding of the FastDeploy OCR detector preprocessor
(src/fastdeploy/vision/ocr/ppocr/det_preprocessor.cc).

Modelling conventions:
- C++ `int` values in this code are nonnegative in every reachable use, so
  dimensions, thresholds and the alignment base are embedded as `Nat`;
  the padding amounts computed by `SetPaddingSize` are embedded as `Int`
  because the C++ code computes them by subtraction.
- C++ `float` arithmetic on integer inputs is modelled as exact rational
  arithmetic: `(float)a / (float)b` compared with `(float)c / (float)d`
  becomes the cross-multiplied integer comparison, `std::ceil(ratio * x)`
  with `ratio = a / b` becomes the integer ceiling division
  `(a * x + b - 1) / b`, truncation `int(x * ratio)` becomes integer floor
  division, and `std::round(x / 32) * 32` (half away from zero on
  nonnegative input) becomes `(2 * x + 32) / 64 * 32`.
- The external pixel primitives (Resize, Pad) are collaborators whose code
  is not part of the excerpt; their dimension/pixel effect is modelled from
  the spec where a claim needs it.
-/

namespace FastDeploy

/-- Integer ceiling division, the exact-arithmetic reading of
    `std::ceil((float)a / (float)b * x)` style expressions in the source. -/
def ceilDivN (a b : Nat) : Nat := (a + b - 1) / b

/-- The rounding pattern `(x + base - 1) / base * base` from
    `cal_dst_size` (det_preprocessor.cc lines 49-50 and 66-67). -/
def alignUp (x base : Nat) : Nat := (x + base - 1) / base * base

/-- Exact-arithmetic reading of `int(std::round(float(x) / 32) * 32)` from
    `OcrDetectorGetInfo` (det_preprocessor.cc lines 92-93): for x >= 0,
    `std::round` is round half away from zero, so the result is
    `floor(x / 32 + 1 / 2) * 32 = (2 * x + 32) / 64 * 32`. -/
def roundToMult32 (x : Nat) : Nat := (2 * x + 32) / 64 * 32

/-- The orientation classification at det_preprocessor.cc lines 34-44:
    returns `(cur_long, cur_short, swap)`. A square image falls into the
    `else` branch, hence `swap = true`. -/
def calOrient (src_height src_width : Nat) : Nat × Nat × Bool :=
  if src_height > src_width then (src_height, src_width, false)
  else (src_width, src_height, true)

/-- The branch structure of `cal_dst_size` (det_preprocessor.cc lines
    46-65) before the common alignment tail: returns the raw
    `(dst_height, dst_width)`. The float comparison
    `cur_ratio > base_ratio` is embedded as the cross-multiplied
    comparison `long_min * cur_short < cur_long * short_min`. -/
def calRaw (src_height src_width long_min short_min : Nat) : Nat × Nat :=
  let o := calOrient src_height src_width
  let cur_long := o.1
  let cur_short := o.2.1
  let sw := o.2.2
  if long_min < cur_long ∧ short_min < cur_short then
    (if sw then cur_short else cur_long, if sw then cur_long else cur_short)
  else if long_min * cur_short < cur_long * short_min then
    let new_long := ceilDivN (short_min * cur_long) cur_short
    (if sw then short_min else new_long, if sw then new_long else short_min)
  else
    let new_short := ceilDivN (long_min * cur_short) cur_long
    (if sw then new_short else long_min, if sw then long_min else new_short)

/-- Embedding of `cal_dst_size` (det_preprocessor.cc lines 23-71):
    both exit paths of the C++ function apply the identical alignment
    tail `dst = max((dst + base - 1) / base * base, base)` to both
    components, so it is factored over `calRaw`. Returns
    `(dst_height, dst_width)` like the C++ `std::make_pair`. -/
def cal_dst_size (src_height src_width long_min short_min base : Nat) : Nat × Nat :=
  let raw := calRaw src_height src_width long_min short_min
  (max (alignUp raw.1 base) base, max (alignUp raw.2 base) base)

/-- The dynamic (non-static) path of
    `DBDetectorPreprocessor::OcrDetectorGetInfo(img, max_size_len)`
    (det_preprocessor.cc lines 81-95): returns `(resize_w, resize_h)`.
    The ternaries `w >= h ? w : h` and `h > w ? h : w` are kept as ifs;
    `int(float(h) * ratio)` with `ratio = max_size_len / d` is the floor
    division `h * max_size_len / d`. -/
def singleDynamicTarget (max_size_len w h : Nat) : Nat × Nat :=
  let max_wh := if h ≤ w then w else h
  if max_size_len < max_wh then
    let d := if w < h then h else w
    (max (roundToMult32 (w * max_size_len / d)) 32,
     max (roundToMult32 (h * max_size_len / d)) 32)
  else
    (max (roundToMult32 w) 32, max (roundToMult32 h) 32)

/-- An image as seen by the shape computation: `FDMat::Width()` and
    `FDMat::Height()`. -/
structure FDMat where
  width : Nat
  height : Nat
deriving DecidableEq

/-- The per-image info array `{w, h, resize_w, resize_h}` built by
    `OcrDetectorGetInfo`. -/
structure ImgInfo where
  origin_w : Nat
  origin_h : Nat
  target_w : Nat
  target_h : Nat
deriving DecidableEq

/-- Configuration state of `DBDetectorPreprocessor` read by the excerpt:
    `static_shape_infer_`, `det_image_shape_` (index 1 = height, index 2 =
    width), `longside_size_`, `shortside_size_`, `max_side_len_`,
    `disable_normalize_`, `disable_permute_`. -/
structure DBDetectorPreprocessor where
  static_shape_infer : Bool
  det_image_shape_h : Nat
  det_image_shape_w : Nat
  longside_size : Nat
  shortside_size : Nat
  max_side_len : Nat
  disable_normalize : Bool
  disable_permute : Bool
deriving DecidableEq

/-- Embedding of `DBDetectorPreprocessor::OcrDetectorGetInfo(img)`
    (det_preprocessor.cc lines 102-113): static shape if configured,
    otherwise `cal_dst_size(h, w, longside_size_, shortside_size_)` with
    the default `base = 32`. -/
def OcrDetectorGetInfo (p : DBDetectorPreprocessor) (img : FDMat) : ImgInfo :=
  if p.static_shape_infer then
    ⟨img.width, img.height, p.det_image_shape_w, p.det_image_shape_h⟩
  else
    let d := cal_dst_size img.height img.width p.longside_size p.shortside_size 32
    ⟨img.width, img.height, d.2, d.1⟩

/-- Embedding of `DBDetectorPreprocessor::OcrDetectorGetInfo(img,
    max_size_len)` (det_preprocessor.cc lines 73-100). -/
def OcrDetectorGetInfoMaxLen (p : DBDetectorPreprocessor) (img : FDMat)
    (max_size_len : Nat) : ImgInfo :=
  if p.static_shape_infer then
    ⟨img.width, img.height, p.det_image_shape_w, p.det_image_shape_h⟩
  else
    let t := singleDynamicTarget max_size_len img.width img.height
    ⟨img.width, img.height, t.1, t.2⟩

/-- The three sizing modes the spec distinguishes: `static_shape_infer_`
    set, the `max_size_len` overload, and the `cal_dst_size` overload. -/
inductive SizingMode where
  | staticShape
  | dynamicSingleThreshold
  | dynamicDualThreshold
deriving DecidableEq

/-- Target `(width, height)` of one image under a sizing mode, read off
    the two `OcrDetectorGetInfo` overloads: the static branch returns
    `det_image_shape_[2], det_image_shape_[1]` verbatim, the single
    threshold mode uses `max_side_len`, the dual threshold mode uses
    `cal_dst_size` whose pair is `(height, width)`. -/
def targetSize (p : DBDetectorPreprocessor) (mode : SizingMode) (w h : Nat) :
    Nat × Nat :=
  match mode with
  | .staticShape => (p.det_image_shape_w, p.det_image_shape_h)
  | .dynamicSingleThreshold => singleDynamicTarget p.max_side_len w h
  | .dynamicDualThreshold =>
      let d := cal_dst_size h w p.longside_size p.shortside_size 32
      (d.2, d.1)

/-- The arguments of `pad_op_->SetPaddingSize(top, bottom, left, right)`
    together with the fill value the pad operator was constructed with
    (`Pad(0, 0, 0, 0, {0, 0, 0})`, det_preprocessor.cc lines 118-119);
    the amounts are `Int` because the C++ code computes them as
    `max_resize_h - resize_h` and `max_resize_w - resize_w` on `int`. -/
structure PadParams where
  top : Int
  bottom : Int
  left : Int
  right : Int
  fill : List ℚ
deriving DecidableEq

/-- The pad parameters set by `DBDetectorPreprocessor::ResizeImage`
    (det_preprocessor.cc lines 131-132): top = 0, bottom =
    `max_resize_h - resize_h`, left = 0, right = `max_resize_w - resize_w`,
    fill value `{0, 0, 0}` unchanged from construction. -/
def ResizeImagePads (resize_w resize_h max_resize_w max_resize_h : Nat) :
    PadParams :=
  { top := 0
    bottom := (max_resize_h : Int) - (resize_h : Int)
    left := 0
    right := (max_resize_w : Int) - (resize_w : Int)
    fill := [0, 0, 0] }

/-- Modelled from the spec: the dimension effect of the external
    collaborators used by `ResizeImage` — the in-place Resize primitive
    sets the buffer to `(resize_w, resize_h)`, and the in-place Pad
    primitive then adds `left + right` columns and `top + bottom` rows. -/
def resizePadDims (resize_w resize_h : Nat) (pp : PadParams) : Int × Int :=
  ((resize_w : Int) + pp.left + pp.right, (resize_h : Int) + pp.top + pp.bottom)

/-- The running maximum `max_resize_w` of `DBDetectorPreprocessor::Apply`
    (det_preprocessor.cc lines 139, 147), starting at 0. -/
def maxTargetW (infos : List ImgInfo) : Nat :=
  infos.foldl (fun acc i => max acc i.target_w) 0

/-- The running maximum `max_resize_h` of `DBDetectorPreprocessor::Apply`
    (det_preprocessor.cc lines 140, 148), starting at 0. -/
def maxTargetH (infos : List ImgInfo) : Nat :=
  infos.foldl (fun acc i => max acc i.target_h) 0

/-- Observable outcome of one `DBDetectorPreprocessor::Apply` call:
    the boolean return value, the per-image info records, the batch
    maxima, the pad parameters passed to the pad operator per image, the
    final buffer dimensions per image, and whether the fused
    normalize-and-permute operator ran. -/
structure ApplyResult where
  success : Bool
  infos : List ImgInfo
  maxResizeW : Nat
  maxResizeH : Nat
  padParams : List PadParams
  finalDims : List (Int × Int)
  normPermuteRun : Bool

/-- Embedding of `DBDetectorPreprocessor::Apply` (det_preprocessor.cc
    lines 137-166): first loop computes `batch_det_img_info_` and the
    running maxima, second loop calls `ResizeImage` per image in batch
    order, then the fused normalize-and-permute operator runs iff
    `!disable_normalize_ && !disable_permute_`; the function returns
    `true` unconditionally. -/
def ApplyModel (p : DBDetectorPreprocessor) (mats : List FDMat) : ApplyResult :=
  let infos := mats.map (OcrDetectorGetInfo p)
  let maxW := maxTargetW infos
  let maxH := maxTargetH infos
  { success := true
    infos := infos
    maxResizeW := maxW
    maxResizeH := maxH
    padParams := infos.map (fun i => ResizeImagePads i.target_w i.target_h maxW maxH)
    finalDims := infos.map (fun i =>
      resizePadDims i.target_w i.target_h (ResizeImagePads i.target_w i.target_h maxW maxH))
    normPermuteRun := !p.disable_normalize && !p.disable_permute }

/-- A raster image buffer: dimensions plus pixel content indexed by
    channel, x and y; pixel values are floats, modelled as rationals. -/
structure Raster where
  width : Nat
  height : Nat
  pix : Nat → Nat → Nat → ℚ

/-- Modelled from the spec: the pixel effect of the external Pad
    collaborator, `pad(top, bottom, left, right, fill_value)` — the buffer
    grows by the given amounts on each side, the original content is
    placed at offset `(left, top)`, and every added pixel holds the
    per-channel fill value. -/
def padRaster (img : Raster) (pp : PadParams) : Raster :=
  { width := img.width + pp.left.toNat + pp.right.toNat
    height := img.height + pp.top.toNat + pp.bottom.toNat
    pix := fun c x y =>
      if pp.left.toNat ≤ x ∧ x < pp.left.toNat + img.width ∧
          pp.top.toNat ≤ y ∧ y < pp.top.toNat + img.height then
        img.pix c (x - pp.left.toNat) (y - pp.top.toNat)
      else pp.fill.getD c 0 }

/-- Long-edge and short-edge results of the dual-threshold policy, stated
    from the spec wording: returns `(long_result, short_result)` for the
    given long/short edges — each branch of `cal_dst_size` expressed
    before the orientation-dependent placement. -/
def dualEdgeSizes (cur_long cur_short long_min short_min base : Nat) :
    Nat × Nat :=
  if long_min < cur_long ∧ short_min < cur_short then
    (max (alignUp cur_long base) base, max (alignUp cur_short base) base)
  else if long_min * cur_short < cur_long * short_min then
    (max (alignUp (ceilDivN (short_min * cur_long) cur_short) base) base,
     max (alignUp short_min base) base)
  else
    (max (alignUp long_min base) base,
     max (alignUp (ceilDivN (long_min * cur_short) cur_long) base) base)

/-- Orientation-dependent placement of a long-edge value and a short-edge
    value into `(dst_height, dst_width)`: the height slot receives the
    long-edge value exactly when `src_height > src_width`. -/
def placeBySwap (src_height src_width longVal shortVal : Nat) : Nat × Nat :=
  if src_height > src_width then (longVal, shortVal) else (shortVal, longVal)

/-! Helper lemmas. -/

/-- Unfolding of `cal_dst_size` through its raw branch structure. -/
lemma cal_dst_size_eq (h w lm sm base : Nat) :
    cal_dst_size h w lm sm base =
      (max (alignUp (calRaw h w lm sm).1 base) base,
       max (alignUp (calRaw h w lm sm).2 base) base) := rfl

lemma alignUp_dvd (x base : Nat) : base ∣ alignUp x base :=
  dvd_mul_left base ((x + base - 1) / base)

lemma roundToMult32_dvd (x : Nat) : 32 ∣ roundToMult32 x :=
  dvd_mul_left 32 ((2 * x + 32) / 64)

lemma dvd_max_of_dvd {c a b : Nat} (h1 : c ∣ a) (h2 : c ∣ b) : c ∣ max a b := by
  rcases le_total a b with h | h
  · rw [max_eq_right h]; exact h2
  · rw [max_eq_left h]; exact h1

lemma alignUp_mono {x y : Nat} (base : Nat) (h : x ≤ y) :
    alignUp x base ≤ alignUp y base :=
  Nat.mul_le_mul_right base (Nat.div_le_div_right (by omega))

lemma clamp_mono {x y : Nat} (base : Nat) (h : x ≤ y) :
    max (alignUp x base) base ≤ max (alignUp y base) base :=
  max_le_max (alignUp_mono base h) le_rfl

/-- Ceiling division of `a * c` by `b` dominates `a` when `b ≤ c`. -/
lemma le_ceilDivN_mul {a b c : Nat} (hb : 0 < b) (hbc : b ≤ c) :
    a ≤ ceilDivN (a * c) b := by
  have hmul : a * b ≤ a * c := Nat.mul_le_mul_left a hbc
  have h2 : (a * b + b - 1) / b = a := by
    have hb1 : (b - 1) / b = 0 := Nat.div_eq_of_lt (by omega)
    have he : a * b + b - 1 = b * a + (b - 1) := by
      rw [Nat.mul_comm a b]; omega
    rw [he, Nat.mul_add_div hb, hb1]
    omega
  calc a = (a * b + b - 1) / b := h2.symm
    _ ≤ (a * c + b - 1) / b := Nat.div_le_div_right (by omega)

/-- Ceiling division of `a * b` by `c` is dominated by `a` when `b ≤ c`. -/
lemma ceilDivN_mul_le {a b c : Nat} (hc : 0 < c) (hbc : b ≤ c) :
    ceilDivN (a * b) c ≤ a := by
  have hmul : a * b ≤ a * c := Nat.mul_le_mul_left a hbc
  have hlt : a * b + c - 1 < (a + 1) * c := by
    have he : (a + 1) * c = a * c + c := by ring
    omega
  have := (Nat.div_lt_iff_lt_mul hc).mpr hlt
  unfold ceilDivN
  omega

/-- Case lemma for `calRaw` on a width-dominant image (`swap = true`). -/
lemma calRaw_of_le {h w : Nat} (lm sm : Nat) (hle : h ≤ w) :
    calRaw h w lm sm =
      if lm < w ∧ sm < h then (h, w)
      else if lm * h < w * sm then (sm, ceilDivN (sm * w) h)
      else (ceilDivN (lm * h) w, lm) := by
  have hnot : ¬ (h > w) := by omega
  simp [calRaw, calOrient, hnot]

/-- Case lemma for `calRaw` on a height-dominant image (`swap = false`). -/
lemma calRaw_of_lt {h w : Nat} (lm sm : Nat) (hlt : w < h) :
    calRaw h w lm sm =
      if lm < h ∧ sm < w then (h, w)
      else if lm * w < h * sm then (ceilDivN (sm * h) w, sm)
      else (lm, ceilDivN (lm * w) h) := by
  have hgt : h > w := hlt
  simp [calRaw, calOrient, hgt]

/-- Both branches of `singleDynamicTarget` produce the clamped
    round-to-nearest form in each component. -/
lemma singleDynamicTarget_shape (msl w h : Nat) :
    ∃ a b, singleDynamicTarget msl w h =
      (max (roundToMult32 a) 32, max (roundToMult32 b) 32) := by
  simp only [singleDynamicTarget]
  split_ifs <;> exact ⟨_, _, rfl⟩

/-- The ternaries of `OcrDetectorGetInfo(img, max_size_len)` both compute
    `max w h`, so the dynamic single-threshold target takes this closed
    form. -/
lemma singleDynamicTarget_eq (msl w h : Nat) :
    singleDynamicTarget msl w h =
      (max (roundToMult32 (if msl < max w h then w * msl / max w h else w)) 32,
       max (roundToMult32 (if msl < max w h then h * msl / max w h else h)) 32) := by
  simp only [singleDynamicTarget]
  rcases Nat.le_total h w with hle | hle
  · have h1 : (if h ≤ w then w else h) = max w h := by
      rw [if_pos hle, max_eq_left hle]
    have h2 : (if w < h then h else w) = max w h := by
      rw [if_neg (not_lt.mpr hle), max_eq_left hle]
    rw [h1, h2]
    split_ifs <;> rfl
  · have h1 : (if h ≤ w then w else h) = max w h := by
      rcases eq_or_lt_of_le hle with heq | hlt
      · rw [heq]; simp
      · rw [if_neg (by omega), max_eq_right hle]
    have h2 : (if w < h then h else w) = max w h := by
      rcases eq_or_lt_of_le hle with heq | hlt
      · rw [heq]; simp
      · rw [if_pos hlt, max_eq_right hle]
    rw [h1, h2]
    split_ifs <;> rfl

/-! Claim theorems. -/

/-- C2: In DynamicDualThreshold mode, whenever the long edge strictly
    exceeds `long_min` and the short edge strictly exceeds `short_min`,
    the original dimensions are kept and each edge is only rounded up to
    the next multiple of the alignment base, floored at one base unit. -/
theorem C2_no_upscale (h w lm sm base : Nat)
    (hl : lm < max h w) (hs : sm < min h w) :
    cal_dst_size h w lm sm base =
      (max (alignUp h base) base, max (alignUp w base) base) := by
  rcases Nat.lt_or_ge w h with hhw | hhw
  · have h1 : max h w = h := max_eq_left (le_of_lt hhw)
    have h2 : min h w = w := min_eq_right (le_of_lt hhw)
    rw [h1] at hl
    rw [h2] at hs
    simp [cal_dst_size, calRaw, calOrient, hhw, hl, hs]
  · have h1 : max h w = w := max_eq_right hhw
    have h2 : min h w = h := min_eq_left hhw
    rw [h1] at hl
    rw [h2] at hs
    have hnot : ¬ (w < h) := by omega
    simp [cal_dst_size, calRaw, calOrient, hnot, hl, hs]

/-- C2 witness: the spec instance `src_height = 3000, src_width = 2000,
    long_min = 960, short_min = 640, base = 32` yields `(3008, 2016)`. -/
theorem C2_witness : cal_dst_size 3000 2000 960 640 32 = (3008, 2016) := by
  rw [C2_no_upscale 3000 2000 960 640 32 (by decide) (by decide)]
  decide

/-- C10: `cal_dst_size` preserves orientation: for positive inputs, if
    `src_width >= src_height` the destination width dominates the
    destination height, and if `src_height > src_width` the destination
    height dominates the destination width (the returned pair is
    `(dst_height, dst_width)`). -/
theorem C10_orientation_preserved (h w lm sm base : Nat)
    (hh : 0 < h) (hw : 0 < w) :
    (h ≤ w → (cal_dst_size h w lm sm base).1 ≤ (cal_dst_size h w lm sm base).2) ∧
    (w < h → (cal_dst_size h w lm sm base).2 ≤ (cal_dst_size h w lm sm base).1) := by
  have key : (h ≤ w → (calRaw h w lm sm).1 ≤ (calRaw h w lm sm).2) ∧
      (w < h → (calRaw h w lm sm).2 ≤ (calRaw h w lm sm).1) := by
    constructor
    · intro hle
      rw [calRaw_of_le lm sm hle]
      split_ifs with hcond1 hcond2
      · exact hle
      · exact le_ceilDivN_mul hh hle
      · exact ceilDivN_mul_le hw hle
    · intro hlt
      rw [calRaw_of_lt lm sm hlt]
      split_ifs with hcond1 hcond2
      · exact le_of_lt hlt
      · exact le_ceilDivN_mul hw (le_of_lt hlt)
      · exact ceilDivN_mul_le hh (le_of_lt hlt)
  rw [cal_dst_size_eq]
  exact ⟨fun hle => clamp_mono base (key.1 hle),
         fun hlt => clamp_mono base (key.2 hlt)⟩

/-- C10 witness: a concrete wide image, 100 x 900. -/
theorem C10_witness :
    (100 ≤ 900 →
      (cal_dst_size 100 900 960 640 32).1 ≤ (cal_dst_size 100 900 960 640 32).2) ∧
    (900 < 100 →
      (cal_dst_size 100 900 960 640 32).2 ≤ (cal_dst_size 100 900 960 640 32).1) :=
  C10_orientation_preserved 100 900 960 640 32 (by decide) (by decide)

/-- C4: In DynamicDualThreshold mode a square image is classified into
    the width-dominant orientation (`swap = true`), so the width slot of
    the result receives the long-edge value and the height slot the
    short-edge value. -/
theorem C4_square_orientation (h w lm sm base : Nat) (hsq : h = w) :
    (calOrient h w).2.2 = true ∧
    cal_dst_size h w lm sm base =
      ((dualEdgeSizes w w lm sm base).2, (dualEdgeSizes w w lm sm base).1) := by
  subst hsq
  have hnot : ¬ (h > h) := lt_irrefl h
  constructor
  · simp [calOrient, hnot]
  · simp only [cal_dst_size, calRaw, calOrient, dualEdgeSizes, hnot, if_neg,
      if_false, if_true]
    split_ifs <;> rfl

/-- C4 witness: the spec instance `h = w = 500` with the default
    thresholds; both edges of the square output are 960. -/
theorem C4_witness :
    ((calOrient 500 500).2.2 = true ∧
      cal_dst_size 500 500 960 640 32 =
        ((dualEdgeSizes 500 500 960 640 32).2,
         (dualEdgeSizes 500 500 960 640 32).1)) ∧
    cal_dst_size 500 500 960 640 32 = (960, 960) :=
  ⟨C4_square_orientation 500 500 960 640 32 rfl, by decide⟩

/-- C3: In DynamicDualThreshold mode, when the no-upscale condition fails:
    if the image ratio `cur_long / cur_short` exceeds the base ratio
    `long_min / short_min` (compared exactly as
    `long_min * cur_short < cur_long * short_min`), the short edge becomes
    exactly `short_min` and the long edge is scaled by the same ratio with
    ceiling rounding; otherwise the long edge becomes exactly `long_min`
    and the short edge is scaled with ceiling rounding; each final edge is
    then rounded up to a multiple of the base and floored at one base
    unit, and placed into height/width by orientation. -/
theorem C3_scaling_branches (h w lm sm base : Nat) (hh : 0 < h) (hw : 0 < w)
    (hno : ¬ (lm < max h w ∧ sm < min h w)) :
    (lm * min h w < max h w * sm →
      cal_dst_size h w lm sm base =
        placeBySwap h w
          (max (alignUp (ceilDivN (sm * max h w) (min h w)) base) base)
          (max (alignUp sm base) base)) ∧
    (¬ lm * min h w < max h w * sm →
      cal_dst_size h w lm sm base =
        placeBySwap h w
          (max (alignUp lm base) base)
          (max (alignUp (ceilDivN (lm * min h w) (max h w)) base) base)) := by
  rw [cal_dst_size_eq]
  rcases Nat.lt_or_ge w h with hlt | hle
  · have h1 : max h w = h := max_eq_left (le_of_lt hlt)
    have h2 : min h w = w := min_eq_right (le_of_lt hlt)
    rw [h1, h2] at hno ⊢
    rw [calRaw_of_lt lm sm hlt, if_neg hno]
    unfold placeBySwap
    rw [if_pos hlt, if_pos hlt]
    constructor
    · intro hr
      rw [if_pos hr]
    · intro hr
      rw [if_neg hr]
  · have h1 : max h w = w := max_eq_right hle
    have h2 : min h w = h := min_eq_left hle
    rw [h1, h2] at hno ⊢
    rw [calRaw_of_le lm sm hle, if_neg hno]
    unfold placeBySwap
    have hnot : ¬ (h > w) := by omega
    rw [if_neg hnot, if_neg hnot]
    constructor
    · intro hr
      rw [if_pos hr]
    · intro hr
      rw [if_neg hr]

/-- C3 witness: wide image 100 x 900 whose ratio 9 exceeds the base ratio
    960 / 640; the short edge is pinned to 640 and the long edge scaled to
    5760, both already multiples of 32. -/
theorem C3_witness :
    cal_dst_size 100 900 960 640 32 = (640, 5760) := by
  have hmain := (C3_scaling_branches 100 900 960 640 32 (by decide) (by decide)
    (by decide)).1 (by decide)
  rw [hmain]
  decide

/-- C1 counterexample: in Static mode the code returns the configured
    `det_image_shape_` dimensions verbatim (det_preprocessor.cc lines
    77-78, 105-106), so with a configured width of 100 the claimed
    multiple-of-32 invariant fails on the positive input 5 x 5. -/
theorem C1_counterexample :
    ¬ (32 ∣ (targetSize ⟨true, 100, 100, 960, 640, 960, false, false⟩
        SizingMode.staticShape 5 5).1) := by
  decide

/-- C1 (amended): for every positive source size, the two dynamic modes
    always return targets that are multiples of 32 and at least 32; the
    Static mode returns the configured dimensions verbatim, so it
    satisfies the invariant exactly when the configured dimensions are
    themselves multiples of 32 and at least 32. -/
theorem C1_target_alignment (p : DBDetectorPreprocessor) (mode : SizingMode)
    (w h : Nat) (hw : 0 < w) (hh : 0 < h)
    (hstat : mode = SizingMode.staticShape →
      32 ∣ p.det_image_shape_w ∧ 32 ≤ p.det_image_shape_w ∧
      32 ∣ p.det_image_shape_h ∧ 32 ≤ p.det_image_shape_h) :
    (32 ∣ (targetSize p mode w h).1 ∧ 32 ≤ (targetSize p mode w h).1) ∧
    (32 ∣ (targetSize p mode w h).2 ∧ 32 ≤ (targetSize p mode w h).2) := by
  have clamp32 : ∀ y : Nat, 32 ∣ y → 32 ∣ max y 32 ∧ 32 ≤ max y 32 :=
    fun y hy => ⟨dvd_max_of_dvd hy dvd_rfl, le_max_right y 32⟩
  cases mode with
  | staticShape =>
      obtain ⟨d1, l1, d2, l2⟩ := hstat rfl
      exact ⟨⟨d1, l1⟩, ⟨d2, l2⟩⟩
  | dynamicSingleThreshold =>
      obtain ⟨a, b, heq⟩ := singleDynamicTarget_shape p.max_side_len w h
      simp only [targetSize]
      rw [heq]
      exact ⟨clamp32 _ (roundToMult32_dvd a), clamp32 _ (roundToMult32_dvd b)⟩
  | dynamicDualThreshold =>
      simp only [targetSize]
      rw [cal_dst_size_eq]
      exact ⟨clamp32 _ (alignUp_dvd _ 32), clamp32 _ (alignUp_dvd _ 32)⟩

/-- C1 witness: Static mode with an aligned configured shape 64 x 64 on
    the positive input 5 x 5. -/
theorem C1_witness :
    (32 ∣ (targetSize ⟨true, 64, 64, 960, 640, 960, false, false⟩
        SizingMode.staticShape 5 5).1 ∧
      32 ≤ (targetSize ⟨true, 64, 64, 960, 640, 960, false, false⟩
        SizingMode.staticShape 5 5).1) ∧
    (32 ∣ (targetSize ⟨true, 64, 64, 960, 640, 960, false, false⟩
        SizingMode.staticShape 5 5).2 ∧
      32 ≤ (targetSize ⟨true, 64, 64, 960, 640, 960, false, false⟩
        SizingMode.staticShape 5 5).2) :=
  C1_target_alignment ⟨true, 64, 64, 960, 640, 960, false, false⟩
    SizingMode.staticShape 5 5 (by decide) (by decide) (fun _ => by decide)

/-- C5: In DynamicSingleThreshold mode, with `m = max(width, height)`:
    if `m` strictly exceeds `max_size_len` both edges are scaled by
    `max_size_len / m` (exact-arithmetic floor), otherwise the original
    size is kept; each resulting edge is rounded to the nearest multiple
    of 32 — `roundToMult32` is genuinely round-to-nearest among all
    multiples of 32 — and floored at one base unit. -/
theorem C5_single_threshold (p : DBDetectorPreprocessor) (img : FDMat)
    (msl : Nat) (hstat : p.static_shape_infer = false) :
    ((OcrDetectorGetInfoMaxLen p img msl).target_w =
        max (roundToMult32 (if msl < max img.width img.height then
          img.width * msl / max img.width img.height else img.width)) 32 ∧
      (OcrDetectorGetInfoMaxLen p img msl).target_h =
        max (roundToMult32 (if msl < max img.width img.height then
          img.height * msl / max img.width img.height else img.height)) 32) ∧
    ∀ x : Nat, 32 ∣ roundToMult32 x ∧
      ∀ k : Nat, 32 ∣ k →
        ((x : Int) - (roundToMult32 x : Int)).natAbs ≤
          ((x : Int) - (k : Int)).natAbs := by
  constructor
  · have hbranch : OcrDetectorGetInfoMaxLen p img msl =
        ⟨img.width, img.height,
         (singleDynamicTarget msl img.width img.height).1,
         (singleDynamicTarget msl img.width img.height).2⟩ := by
      unfold OcrDetectorGetInfoMaxLen
      rw [hstat]
      rfl
    rw [hbranch, singleDynamicTarget_eq]
    exact ⟨rfl, rfl⟩
  · intro x
    refine ⟨roundToMult32_dvd x, ?_⟩
    intro k hk
    obtain ⟨t, rfl⟩ := hk
    have hdm := Nat.div_add_mod (2 * x + 32) 64
    have hml : (2 * x + 32) % 64 < 64 := Nat.mod_lt _ (by norm_num)
    unfold roundToMult32
    omega

/-- C5 witness: a 1000 x 600 image with `max_size_len = 960` scales to
    960 x 576, both multiples of 32, in the non-static mode. -/
theorem C5_witness :
    ((OcrDetectorGetInfoMaxLen ⟨false, 0, 0, 960, 640, 960, false, false⟩
        ⟨1000, 600⟩ 960).target_w =
      max (roundToMult32 (if 960 < max 1000 600 then
        1000 * 960 / max 1000 600 else 1000)) 32 ∧
     (OcrDetectorGetInfoMaxLen ⟨false, 0, 0, 960, 640, 960, false, false⟩
        ⟨1000, 600⟩ 960).target_h =
      max (roundToMult32 (if 960 < max 1000 600 then
        600 * 960 / max 1000 600 else 600)) 32) ∧
    ∀ x : Nat, 32 ∣ roundToMult32 x ∧
      ∀ k : Nat, 32 ∣ k →
        ((x : Int) - (roundToMult32 x : Int)).natAbs ≤
          ((x : Int) - (k : Int)).natAbs :=
  C5_single_threshold ⟨false, 0, 0, 960, 640, 960, false, false⟩
    ⟨1000, 600⟩ 960 rfl

/-- Running `foldl` with a binary `max` dominates the seed and every
    mapped element of the list. -/
lemma foldl_max_bound (f : ImgInfo → Nat) :
    ∀ (l : List ImgInfo) (a : Nat),
      a ≤ l.foldl (fun acc i => max acc (f i)) a ∧
      ∀ i ∈ l, f i ≤ l.foldl (fun acc i => max acc (f i)) a := by
  intro l
  induction l with
  | nil =>
      intro a
      exact ⟨le_refl a, by intro i hi; cases hi⟩
  | cons j l ih =>
      intro a
      simp only [List.foldl_cons]
      obtain ⟨h1, h2⟩ := ih (max a (f j))
      refine ⟨le_trans (le_max_left _ _) h1, ?_⟩
      intro i hi
      rcases List.mem_cons.mp hi with rfl | hi
      · exact le_trans (le_max_right _ _) h1
      · exact h2 i hi

/-- Every image target width in the batch is dominated by the running
    maximum of `Apply`. -/
lemma target_w_le_max (infos : List ImgInfo) :
    ∀ i ∈ infos, i.target_w ≤ maxTargetW infos :=
  (foldl_max_bound ImgInfo.target_w infos 0).2

/-- Every image target height in the batch is dominated by the running
    maximum of `Apply`. -/
lemma target_h_le_max (infos : List ImgInfo) :
    ∀ i ∈ infos, i.target_h ≤ maxTargetH infos :=
  (foldl_max_bound ImgInfo.target_h infos 0).2

/-- C6: for every non-empty batch, the resolved batch maxima dominate
    every per-image target, and after resize then pad in batch order every
    image buffer has final width and height equal to those maxima. -/
theorem C6_batch_uniform (p : DBDetectorPreprocessor) (mats : List FDMat)
    (hne : mats ≠ []) :
    (∀ info ∈ (ApplyModel p mats).infos,
        info.target_w ≤ (ApplyModel p mats).maxResizeW ∧
        info.target_h ≤ (ApplyModel p mats).maxResizeH) ∧
    ∀ d ∈ (ApplyModel p mats).finalDims,
        d = (((ApplyModel p mats).maxResizeW : Int),
             ((ApplyModel p mats).maxResizeH : Int)) := by
  constructor
  · intro info hmem
    exact ⟨target_w_le_max (mats.map (OcrDetectorGetInfo p)) info hmem,
           target_h_le_max (mats.map (OcrDetectorGetInfo p)) info hmem⟩
  · intro d hd
    obtain ⟨i, hi, rfl⟩ := List.mem_map.mp hd
    have hW : (ApplyModel p mats).maxResizeW =
        maxTargetW (mats.map (OcrDetectorGetInfo p)) := rfl
    have hH : (ApplyModel p mats).maxResizeH =
        maxTargetH (mats.map (OcrDetectorGetInfo p)) := rfl
    simp only [resizePadDims, ResizeImagePads]
    rw [hW, hH, Prod.mk.injEq]
    constructor <;> ring

/-- C6 witness: a two-image batch with different resolved targets. -/
theorem C6_witness :
    (∀ info ∈ (ApplyModel ⟨false, 0, 0, 960, 640, 960, false, false⟩
        [⟨100, 200⟩, ⟨300, 50⟩]).infos,
      info.target_w ≤ (ApplyModel ⟨false, 0, 0, 960, 640, 960, false, false⟩
        [⟨100, 200⟩, ⟨300, 50⟩]).maxResizeW ∧
      info.target_h ≤ (ApplyModel ⟨false, 0, 0, 960, 640, 960, false, false⟩
        [⟨100, 200⟩, ⟨300, 50⟩]).maxResizeH) ∧
    ∀ d ∈ (ApplyModel ⟨false, 0, 0, 960, 640, 960, false, false⟩
        [⟨100, 200⟩, ⟨300, 50⟩]).finalDims,
      d = (((ApplyModel ⟨false, 0, 0, 960, 640, 960, false, false⟩
        [⟨100, 200⟩, ⟨300, 50⟩]).maxResizeW : Int),
           ((ApplyModel ⟨false, 0, 0, 960, 640, 960, false, false⟩
        [⟨100, 200⟩, ⟨300, 50⟩]).maxResizeH : Int)) :=
  C6_batch_uniform ⟨false, 0, 0, 960, 640, 960, false, false⟩
    [⟨100, 200⟩, ⟨300, 50⟩] (by decide)

/-- Membership in the zip of a list with its own map determines the
    second component from the first. -/
lemma zip_map_mem {α β : Type} (g : α → β) :
    ∀ (l : List α) (pr : α × β),
      pr ∈ l.zip (l.map g) → pr.2 = g pr.1 ∧ pr.1 ∈ l := by
  intro l
  induction l with
  | nil =>
      intro pr hpr
      cases hpr
  | cons a l ih =>
      intro pr hpr
      rw [List.map_cons, List.zip_cons_cons] at hpr
      rcases List.mem_cons.mp hpr with rfl | hpr
      · exact ⟨rfl, List.mem_cons_self a l⟩
      · obtain ⟨h1, h2⟩ := ih pr hpr
        exact ⟨h1, List.mem_cons_of_mem a h2⟩

/-- A pad with zero top and left amounts leaves every in-range pixel of
    the original content at its original coordinates. -/
lemma padRaster_origin (img : Raster) (pp : PadParams) (htop : pp.top = 0)
    (hleft : pp.left = 0) (c x y : Nat) (hx : x < img.width)
    (hy : y < img.height) :
    (padRaster img pp).pix c x y = img.pix c x y := by
  simp only [padRaster, htop, hleft, Int.toNat_zero]
  rw [if_pos ⟨Nat.zero_le x, by omega, Nat.zero_le y, by omega⟩]
  simp

/-- C7: for every image of the batch, the pad parameters set by
    `ResizeImage` add pixels only on the bottom and right (top and left
    amounts 0, per-channel fill value 0), with amounts exactly
    `batch_max_height - target_height` and `batch_max_width -
    target_width`, both nonnegative under the batch-maximum invariant;
    a pad with zero top and left amounts preserves the content's top-left
    origin. -/
theorem C7_trailing_pad (p : DBDetectorPreprocessor) (mats : List FDMat)
    (pr : ImgInfo × PadParams)
    (hmem : pr ∈ (ApplyModel p mats).infos.zip (ApplyModel p mats).padParams) :
    pr.2.top = 0 ∧ pr.2.left = 0 ∧
    pr.2.bottom = ((ApplyModel p mats).maxResizeH : Int) - (pr.1.target_h : Int) ∧
    pr.2.right = ((ApplyModel p mats).maxResizeW : Int) - (pr.1.target_w : Int) ∧
    0 ≤ pr.2.bottom ∧ 0 ≤ pr.2.right ∧
    pr.2.fill = [0, 0, 0] ∧
    ∀ (img : Raster) (c x y : Nat), x < img.width → y < img.height →
      (padRaster img pr.2).pix c x y = img.pix c x y := by
  have hmem2 : pr ∈ (mats.map (OcrDetectorGetInfo p)).zip
      ((mats.map (OcrDetectorGetInfo p)).map
        (fun i => ResizeImagePads i.target_w i.target_h
          (maxTargetW (mats.map (OcrDetectorGetInfo p)))
          (maxTargetH (mats.map (OcrDetectorGetInfo p))))) := hmem
  have hz := zip_map_mem
    (fun i => ResizeImagePads i.target_w i.target_h
      (maxTargetW (mats.map (OcrDetectorGetInfo p)))
      (maxTargetH (mats.map (OcrDetectorGetInfo p))))
    (mats.map (OcrDetectorGetInfo p)) pr hmem2
  obtain ⟨hpp, hmem1⟩ := hz
  have hbw := target_w_le_max (mats.map (OcrDetectorGetInfo p)) pr.1 hmem1
  have hbh := target_h_le_max (mats.map (OcrDetectorGetInfo p)) pr.1 hmem1
  rw [hpp]
  refine ⟨rfl, rfl, rfl, rfl, by simp [ResizeImagePads]; omega,
    by simp [ResizeImagePads]; omega, rfl, ?_⟩
  intro img c x y hx hy
  exact padRaster_origin img _ rfl rfl c x y hx hy

/-- C7 witness: the first image of a concrete two-image batch; its pad
    amounts are bottom 0 and right 3200 with zero fill. -/
theorem C7_witness :
    ((⟨100, 200, 640, 1280⟩, ⟨0, 0, 0, 3200, [0, 0, 0]⟩) :
        ImgInfo × PadParams).2.top = 0 ∧
    ((⟨100, 200, 640, 1280⟩, ⟨0, 0, 0, 3200, [0, 0, 0]⟩) :
        ImgInfo × PadParams).2.left = 0 ∧
    ((⟨100, 200, 640, 1280⟩, ⟨0, 0, 0, 3200, [0, 0, 0]⟩) :
        ImgInfo × PadParams).2.bottom =
      (((ApplyModel ⟨false, 0, 0, 960, 640, 960, false, false⟩
          [⟨100, 200⟩, ⟨300, 50⟩]).maxResizeH : Int) -
        ((((⟨100, 200, 640, 1280⟩, ⟨0, 0, 0, 3200, [0, 0, 0]⟩) :
          ImgInfo × PadParams).1.target_h : Int))) ∧
    ((⟨100, 200, 640, 1280⟩, ⟨0, 0, 0, 3200, [0, 0, 0]⟩) :
        ImgInfo × PadParams).2.right =
      (((ApplyModel ⟨false, 0, 0, 960, 640, 960, false, false⟩
          [⟨100, 200⟩, ⟨300, 50⟩]).maxResizeW : Int) -
        ((((⟨100, 200, 640, 1280⟩, ⟨0, 0, 0, 3200, [0, 0, 0]⟩) :
          ImgInfo × PadParams).1.target_w : Int))) ∧
    0 ≤ ((⟨100, 200, 640, 1280⟩, ⟨0, 0, 0, 3200, [0, 0, 0]⟩) :
        ImgInfo × PadParams).2.bottom ∧
    0 ≤ ((⟨100, 200, 640, 1280⟩, ⟨0, 0, 0, 3200, [0, 0, 0]⟩) :
        ImgInfo × PadParams).2.right ∧
    ((⟨100, 200, 640, 1280⟩, ⟨0, 0, 0, 3200, [0, 0, 0]⟩) :
        ImgInfo × PadParams).2.fill = [0, 0, 0] ∧
    ∀ (img : Raster) (c x y : Nat), x < img.width → y < img.height →
      (padRaster img (((⟨100, 200, 640, 1280⟩, ⟨0, 0, 0, 3200, [0, 0, 0]⟩) :
        ImgInfo × PadParams).2)).pix c x y = img.pix c x y :=
  C7_trailing_pad ⟨false, 0, 0, 960, 640, 960, false, false⟩
    [⟨100, 200⟩, ⟨300, 50⟩]
    (⟨100, 200, 640, 1280⟩, ⟨0, 0, 0, 3200, [0, 0, 0]⟩) (by decide)

/-- C8 counterexample: no precondition validation exists — on a batch
    holding a 0 x 0 image under a configuration with
    `shortside_size_ = 0`, `Apply` does not reject: it returns success
    rather than a configuration-error signal. -/
theorem C8_counterexample :
    ¬ ((ApplyModel ⟨false, 0, 0, 960, 0, 960, false, false⟩
        [⟨0, 0⟩]).success = false) := by
  decide

/-- C8 (amended): precondition violations are not rejected — `Apply`
    enters the sizing computation unconditionally for every image of
    every batch (one info record per image) and always signals success;
    no configuration-error signal exists in the code. -/
theorem C8_no_validation (p : DBDetectorPreprocessor) (mats : List FDMat) :
    (ApplyModel p mats).success = true ∧
    (ApplyModel p mats).infos.length = mats.length :=
  ⟨rfl, List.length_map mats (OcrDetectorGetInfo p)⟩

/-- C9 counterexample: disabling only normalization
    (`disable_normalize_ = true`, `disable_permute_ = false`) does not
    leave the permutation applied — the fused operator is skipped
    entirely, because the code guards it with
    `!disable_normalize_ && !disable_permute_`. -/
theorem C9_counterexample :
    ¬ ((ApplyModel ⟨false, 0, 0, 960, 640, 960, true, false⟩
        [⟨64, 64⟩]).normPermuteRun = true) := by
  decide

/-- C9 (amended): after the resize-and-pad loop, the single fused
    batched normalize-and-permute step runs if and only if both disable
    flags are unset; setting either flag skips the entire fused step, so
    normalization and permutation cannot be disabled independently. -/
theorem C9_fused_step_gate (p : DBDetectorPreprocessor) (mats : List FDMat) :
    (ApplyModel p mats).normPermuteRun = true ↔
      p.disable_normalize = false ∧ p.disable_permute = false := by
  show (!p.disable_normalize && !p.disable_permute) = true ↔ _
  cases hdn : p.disable_normalize <;> cases hdp : p.disable_permute <;> simp

end FastDeploy
